import Mathlib

/-!
Verification of the interception and statistics-diffing core of `pandas_log`
(`src/pandas_log/pandas_log.py`), as a shallow embedding.

The embedding has two layers:

* a value-level model of one intercepted call, mirroring
  `_run_method_and_calc_stats` (source lines 138-176): the wrapped operation is
  an abstract method semantics acting on container values, and the wrapper's
  snapshotting, in-place substitution, reporting and persistence are translated
  line by line;

* a registry-level model of the monkey-patching state machine: the attribute
  maps of `pd.DataFrame` / `pd.Series`, the mutable `settings` allow-lists, and
  the `ALREADY_ENABLED` flag, with `auto_enable`, `auto_disable`, the `enable`
  context manager and the `disable` context manager (suspend/resume) translated
  from source lines 21-116.

The helper modules `settings`, `aop_utils` and `pandas_execution_stats` are not
part of the source tree that is being verified here; the definitions taken from
them are marked `Modelled from the spec:` and follow the specification's
description of their behavior (together with the constraints the main module
places on them, e.g. that restoring does not erase the kept copy).
-/

namespace PandasLog

/-- Decidable equality for `Except` outcomes, so concrete call outcomes can be
evaluated by `decide`. -/
instance instDecidableEqExcept {ε α : Type} [DecidableEq ε] [DecidableEq α] :
    DecidableEq (Except ε α)
  | .error a, .error b =>
    if h : a = b then .isTrue (h ▸ rfl)
    else .isFalse (fun hc => h (Except.error.inj hc))
  | .error _, .ok _ => .isFalse (fun hc => Except.noConfusion hc)
  | .ok _, .error _ => .isFalse (fun hc => Except.noConfusion hc)
  | .ok a, .ok b =>
    if h : a = b then .isTrue (h ▸ rfl)
    else .isFalse (fun hc => h (Except.ok.inj hc))

/-- `s.startswith(pre)` on attribute names, phrased over the character list so
that concrete instances evaluate inside the kernel. -/
def strStarts (s pre : String) : Bool :=
  pre.toList.isPrefixOf s.toList

/-- `s[n:]` on attribute names (source line 68 strips a prefix by slicing). -/
def strDrop (s : String) (n : Nat) : String :=
  (s.toList.drop n).asString

/-! ### Container values

A pandas object, as far as the statistics core observes it: a `DataFrame`
(row count and column names), a `Series`, a scalar result of an aggregation,
or Python's `None` (the return value of strictly in-place operations). -/

/-- The structural content of a DataFrame that the diff statistics read. -/
structure Frame where
  rows : Nat
  cols : List String
deriving DecidableEq, Repr

/-- A value flowing through an intercepted pandas call. -/
inductive PdVal where
  | frame (d : Frame)
  | series (len : Nat)
  | scalar (n : Int)
  | pyNone
deriving DecidableEq, Repr

/-- `isinstance(v, pd.DataFrame) or isinstance(v, pd.Series)` (source lines 171-173). -/
def PdVal.isFrameOrSeries : PdVal → Bool
  | .frame _ => true
  | .series _ => true
  | _ => false

/-- A raised Python exception, identified by its rendering. -/
structure PyErr where
  msg : String
deriving DecidableEq, Repr

/-- The semantics of one pandas method: applied to the input container, the
positional arguments and the keyword arguments, it either raises or returns a
pair of (return value, post-call state of the input container).  The second
component makes the in-place effect on the mutable input object explicit,
since the embedding is pure; for a method with no in-place effect it is the
unchanged input. -/
def Method : Type :=
  PdVal → List PdVal → List (String × PdVal) → Except PyErr (PdVal × PdVal)

/-- Measurements taken around one execution of the original implementation.
Wall-clock time is outside the embedding and recorded as `0`. -/
structure ExecutionStats where
  exec_time : Nat
  memory : Option (Nat × Nat)
deriving DecidableEq, Repr

/-- The target type tag of an intercepted operation (`cls` in the source). -/
inductive ClsTag where
  | dataFrame
  | series
deriving DecidableEq, Repr

/-- The DiffRecord built for one intercepted call (source lines 160-169):
the arguments of the `StepStats` constructor, in order. -/
structure StepStats where
  execution_stats : ExecutionStats
  cls : ClsTag
  fn : String
  fn_args : List PdVal
  fn_kwargs : List (String × PdVal)
  full_signature : Bool
  input_df : PdVal
  output_df : PdVal
deriving DecidableEq, Repr

/-- Memory footprint of a container value, used for the optional
memory-before/after measurement. -/
def pdMemory : PdVal → Nat
  | .frame d => d.rows * d.cols.length
  | .series n => n
  | .scalar _ => 1
  | .pyNone => 0

/-- Modelled from the spec: `get_execution_stats` lives in the
`pandas_execution_stats` module, which is not under `src/`.  Per the spec it
executes the original implementation of the intercepted operation on the input
container and the call arguments, measuring elapsed time strictly around that
execution and memory before/after when opted in, and a raised error propagates
unchanged.  The original implementation is passed here directly as the abstract
method semantics `fn` (the spec's recursion rule: the wrapper invokes the
stored original, never the currently-registered symbol). -/
def get_execution_stats (fn : Method) (input_df : PdVal) (fn_args : List PdVal)
    (fn_kwargs : List (String × PdVal)) (calculate_memory : Bool) :
    Except PyErr ((PdVal × PdVal) × ExecutionStats) :=
  match fn input_df fn_args fn_kwargs with
  | .error e => .error e
  | .ok (ret, container) =>
      .ok ((ret, container),
        ExecutionStats.mk 0
          (if calculate_memory then some (pdMemory input_df, pdMemory container) else none))

/-- Modelled from the spec: `StepStats.log_stats_if_needed` lives in the
`pandas_execution_stats` module, which is not under `src/`.  Per the spec the
Reporter is invoked exactly once per intercepted call unless `silent` is set,
in which case emission is suppressed while the statistics remain computed;
`verbose` and `copy_ok` only affect the rendering of the emitted entry. -/
def log_stats_if_needed (step : StepStats) (silent : Bool) (verbose : Bool)
    (copy_ok : Bool) : List StepStats :=
  if silent then [] else [step]

/-- Modelled from the spec: `StepStats.persist_execution_stats` lives in the
`pandas_execution_stats` module, which is not under `src/`.  Per the spec it
appends the DiffRecord to the pipeline-level log, an append-only ordered
sequence of records. -/
def persist_execution_stats (step : StepStats) (log : List StepStats) :
    List StepStats :=
  log ++ [step]

/-- `_run_method_and_calc_stats` (source lines 138-176), the body of every
installed wrapper.  `origCopy` is the resolution of
`getattr(input_df, 'original_copy')`: `some f` when the attribute exists and
`none` when looking it up raises `AttributeError`; `stdCopy` is the container's
standard `copy(deep=True)`.  The result is the triple of the call outcome
(return value paired with the post-call state of the input container), the
pipeline-level log after the call, and the entries emitted to the Reporter. -/
def run_method_and_calc_stats (cls : ClsTag) (fnName : String) (fn : Method)
    (origCopy : Option (PdVal → PdVal)) (stdCopy : PdVal → PdVal)
    (fn_args : List PdVal) (fn_kwargs : List (String × PdVal)) (input_df : PdVal)
    (full_signature silent verbose copy_ok calculate_memory : Bool)
    (log : List StepStats) :
    Except PyErr (PdVal × PdVal) × List StepStats × List StepStats :=
  -- lines 142-148: deep-copy the input up front so inplace methods can be diffed;
  -- the original (un-patched) copy is tried first, falling back on AttributeError
  let original_input_df :=
    if copy_ok then
      match origCopy with
      | some f => f input_df
      | none => stdCopy input_df
    else input_df
  match get_execution_stats fn input_df fn_args fn_kwargs calculate_memory with
  | .error e => (.error e, log, [])
  | .ok ((ret, container), execution_stats) =>
      -- lines 152-154: a None return means the operation was strictly in place
      let output_df := if ret = PdVal.pyNone then container else ret
      -- lines 155-158: with copy_ok the pre-call copy becomes the before view;
      -- without it the name still denotes the live (possibly mutated) container
      let input_view := if copy_ok then original_input_df else container
      let step_stats := StepStats.mk execution_stats cls fnName fn_args fn_kwargs
        full_signature input_view output_df
      let reports := log_stats_if_needed step_stats silent verbose copy_ok
      let log2 := if output_df.isFrameOrSeries then persist_execution_stats step_stats log
        else log
      (.ok (output_df, container), log2, reports)

/-! ### The interception registry and the activation state machine

The process-wide mutable state of the module: the attribute maps of
`pd.DataFrame` and `pd.Series` (operation name to implementation), the mutable
allow-lists of the `settings` module, and the `ALREADY_ENABLED` flag.  An
implementation is either an original pandas callable or an instrumented
wrapper around the implementation that was current when it was installed. -/

/-- The configuration captured by an installed wrapper's closure
(the parameters of `auto_enable`, source line 81). -/
structure Config where
  verbose : Bool
  silent : Bool
  full_signature : Bool
  copy_ok : Bool
  calculate_memory : Bool
deriving DecidableEq, Repr

/-- An implementation stored under an attribute name: an original pandas
callable, or the wrapper `create_overide_pandas_func` installs around the
implementation current at installation time. -/
inductive PdFunc where
  | orig (id : Nat)
  | wrapper (cfg : Config) (inner : PdFunc)
deriving DecidableEq, Repr

/-- True precisely for an installed wrapper. -/
def PdFunc.isWrapped : PdFunc → Bool
  | .wrapper _ _ => true
  | .orig _ => false

/-- A wrapper applied exactly once to an original implementation, or an
unwrapped original. -/
def PdFunc.atMostSinglyWrapped : PdFunc → Bool
  | .orig _ => true
  | .wrapper _ (.orig _) => true
  | .wrapper _ (.wrapper _ _) => false

/-- The attribute map of one pandas class: operation name to implementation,
in attribute order. -/
abbrev AttrMap : Type := List (String × PdFunc)

/-- `getattr(cls, name)`: the implementation currently stored under `name`. -/
def getAttr (attrs : AttrMap) (name : String) : Option PdFunc :=
  match List.find? (fun p => p.1 == name) attrs with
  | some p => some p.2
  | none => none

/-- `setattr(cls, name, v)`: update the implementation stored under `name`,
creating the attribute when it does not exist yet. -/
def setAttr (attrs : AttrMap) (name : String) (v : PdFunc) : AttrMap :=
  if List.any attrs (fun p => p.1 == name) then
    List.map (fun p => if p.1 == name then (name, v) else p) attrs
  else attrs ++ [(name, v)]

/-- `dir(cls)`: the attribute names, snapshotted before each loop just as
Python's `dir` snapshots the namespace. -/
def dirOf (attrs : AttrMap) : List String :=
  List.map Prod.fst attrs

/-- Modelled from the spec: `settings.ORIGINAL_METHOD_PREFIX` (the `settings`
module is not under `src/`); the docstring of `auto_disable` states that kept
originals use the `original_` name prefix. -/
def ORIGINAL_METHOD_PRE : String := "original_"

/-- Modelled from the spec: `settings.PATCHED_LOG_METHOD_PREFIX` (the
`settings` module is not under `src/`); the name prefix under which the
`disable` context manager parks the patched implementations. -/
def PATCHED_LOG_METHOD_PRE : String := "patched_log_"

/-- The mutable allow-lists of the `settings` module.  Their concrete contents
are external configuration (excluded from the core by the spec); the lists are
state because `auto_enable` mutates the DataFrame list in place
(source lines 95-97). -/
structure Settings where
  DATAFRAME_METHODS_TO_OVERIDE : List String
  DATAFRAME_ADDITIONAL_METHODS_TO_OVERIDE : List String
  SERIES_METHODS_TO_OVERIDE : List String
deriving DecidableEq, Repr

/-- The process-wide state of the module. -/
structure PState where
  dfAttrs : AttrMap
  srAttrs : AttrMap
  settings : Settings
  ALREADY_ENABLED : Bool
deriving DecidableEq, Repr

/-- Modelled from the spec: `aop_utils.keep_pandas_func_copy(cls, func, prefix)`
(the `aop_utils` module is not under `src/`).  It stores the implementation
currently registered under `func` on the class also under the prefixed name. -/
def keep_pandas_func_copy (attrs : AttrMap) (func : String) (pre : String) :
    AttrMap :=
  match getAttr attrs func with
  | some v => setAttr attrs (pre ++ func) v
  | none => attrs

/-- Modelled from the spec: `aop_utils.restore_pandas_func_copy(func, prefix)`
(the `aop_utils` module is not under `src/`).  `func` is the prefixed name; the
implementation stored under it is copied back onto the unprefixed name.  It
takes no class argument and operates on `pd.DataFrame`'s attributes only, and
the prefixed copy is not erased (source line 76: the original-prefixed copy is
still there on re-entry because restoring never erased it). -/
def restore_pandas_func_copy (attrs : AttrMap) (func : String) (pre : String) :
    AttrMap :=
  match getAttr attrs func with
  | some v => setAttr attrs (strDrop func pre.toList.length) v
  | none => attrs

/-- One class's installation loop of `auto_enable` (source lines 102-107 for
`pd.DataFrame`, 108-113 for `pd.Series`): for every attribute name in the
allow-list, keep a prefixed copy of the current implementation and replace the
attribute with a fresh wrapper around it. -/
def wrapClass (cfg : Config) (attrs : AttrMap) (methods : List String) :
    AttrMap :=
  List.foldl
    (fun acc func =>
      if func ∈ methods then
        match getAttr acc func with
        | some cur =>
            setAttr (setAttr acc (ORIGINAL_METHOD_PRE ++ func) cur) func
              (PdFunc.wrapper cfg cur)
        | none => acc
      else acc)
    attrs (dirOf attrs)

/-- `auto_enable` (source lines 81-116): a no-op when already enabled;
otherwise extends the DataFrame allow-list with the additional methods and
installs wrappers on both classes.  `enable_extras` only imports the
out-of-core extras module and has no effect on the registry. -/
def auto_enable (cfg : Config) (s : PState) : PState :=
  if s.ALREADY_ENABLED then s
  else
    PState.mk
      (wrapClass cfg s.dfAttrs
        (s.settings.DATAFRAME_METHODS_TO_OVERIDE ++
          s.settings.DATAFRAME_ADDITIONAL_METHODS_TO_OVERIDE))
      (wrapClass cfg s.srAttrs s.settings.SERIES_METHODS_TO_OVERIDE)
      (Settings.mk
        (s.settings.DATAFRAME_METHODS_TO_OVERIDE ++
          s.settings.DATAFRAME_ADDITIONAL_METHODS_TO_OVERIDE)
        s.settings.DATAFRAME_ADDITIONAL_METHODS_TO_OVERIDE
        s.settings.SERIES_METHODS_TO_OVERIDE)
      true

/-- The restore loop of `auto_disable` (source lines 33-35): every
`pd.DataFrame` attribute carrying the original-method prefix is copied back
onto its unprefixed name. -/
def restoreClass (attrs : AttrMap) : AttrMap :=
  List.foldl
    (fun acc func =>
      if strStarts func ORIGINAL_METHOD_PRE then
        restore_pandas_func_copy acc func ORIGINAL_METHOD_PRE
      else acc)
    attrs (dirOf attrs)

/-- `auto_disable` (source lines 24-36): a no-op when not enabled; otherwise
restores every prefixed `pd.DataFrame` attribute and clears the flag.  The
loop runs over `dir(pd.DataFrame)` only. -/
def auto_disable (s : PState) : PState :=
  if s.ALREADY_ENABLED then
    PState.mk (restoreClass s.dfAttrs) s.srAttrs s.settings false
  else s

/-- The entry half of the `disable` context manager (source lines 63-72), run
when the flag is set: for every original-prefixed `pd.DataFrame` attribute,
park the patched implementation under the patched-log prefix, restore the
original, and clear the flag. -/
def disableEnter (s : PState) : PState :=
  PState.mk
    (List.foldl
      (fun acc func =>
        if strStarts func ORIGINAL_METHOD_PRE then
          restore_pandas_func_copy
            (keep_pandas_func_copy acc (strDrop func ORIGINAL_METHOD_PRE.toList.length)
              PATCHED_LOG_METHOD_PRE)
            func ORIGINAL_METHOD_PRE
        else acc)
      s.dfAttrs (dirOf s.dfAttrs))
    s.srAttrs s.settings false

/-- The exit half of the `disable` context manager (source lines 74-78): every
patched-log-prefixed attribute is restored onto its unprefixed name and the
flag is set again. -/
def disableExit (s : PState) : PState :=
  PState.mk
    (List.foldl
      (fun acc func =>
        if strStarts func PATCHED_LOG_METHOD_PRE then
          restore_pandas_func_copy acc func PATCHED_LOG_METHOD_PRE
        else acc)
      s.dfAttrs (dirOf s.dfAttrs))
    s.srAttrs s.settings true

/-- The `disable` context manager (source lines 57-78) applied to a scope
body: when the flag is clear it just runs the body; otherwise it runs the
entry half, the body, and the exit half. -/
def disableCtx (s : PState) (body : PState → PState) : PState :=
  if s.ALREADY_ENABLED then disableExit (body (disableEnter s))
  else body s

/-- The `enable` context manager (source lines 39-54) applied to a scope body
that ends either normally or with a raised error.  The generator body is
`auto_enable(...); yield; auto_disable()` with no try/finally, so when the
scope body raises, the error is thrown at the `yield` and `auto_disable` is
never reached. -/
def enableCtx (cfg : Config) (s : PState)
    (body : PState → PState × Option PyErr) : PState × Option PyErr :=
  match body (auto_enable cfg s) with
  | (s2, none) => (auto_disable s2, none)
  | (s2, some e) => (s2, some e)

/-- One full `auto_enable`/`auto_disable` round trip. -/
def cycle (cfg : Config) (s : PState) : PState :=
  auto_disable (auto_enable cfg s)

/-- `n` successive enable/disable round trips. -/
def cycles (cfg : Config) : Nat → PState → PState
  | 0, s => s
  | n + 1, s => cycle cfg (cycles cfg n s)

/-! ### A concrete initial process state

A small pandas namespace for evaluating the state machine on explicit inputs:
three DataFrame attributes of which `dropna` and `copy` are in the allow-list
and `query` is listed but absent from the class, and one Series attribute
`copy` in the Series allow-list. -/

/-- The default configuration of `enable` (source line 40). -/
def cfg0 : Config := Config.mk false false true true false

/-- A concrete settings module: `query` is in the additional list. -/
def sampleSettings : Settings :=
  Settings.mk ["dropna", "copy"] ["query"] ["copy"]

/-- A concrete initial process state, instrumentation never yet enabled. -/
def s0 : PState :=
  PState.mk
    [("dropna", PdFunc.orig 0), ("copy", PdFunc.orig 1), ("head", PdFunc.orig 3)]
    [("copy", PdFunc.orig 2)]
    sampleSettings
    false

/-- The state right after the first `auto_enable`. -/
def e0 : PState := auto_enable cfg0 s0

/-! ### Concrete method semantics for evaluating the wrapper -/

/-- `df.dropna(inplace=True)`-style semantics: a strictly in-place mutation,
dropping one row and returning Python `None`. -/
def dropna_inplace : Method := fun df _fn_args _fn_kwargs =>
  match df with
  | .frame d => .ok (.pyNone, .frame (Frame.mk (d.rows - 1) d.cols))
  | _ => .error (PyErr.mk "TypeError")

/-- `df.head(1)`-style semantics: returns a fresh one-row frame, leaving the
input container untouched. -/
def head_one : Method := fun df _fn_args _fn_kwargs =>
  match df with
  | .frame d => .ok (.frame (Frame.mk (min 1 d.rows) d.cols), df)
  | _ => .error (PyErr.mk "TypeError")

/-- An aggregation returning a scalar, leaving the input untouched. -/
def sum_scalar : Method := fun df _fn_args _fn_kwargs =>
  match df with
  | .frame _ => .ok (.scalar 7, df)
  | _ => .error (PyErr.mk "TypeError")

/-- A method that raises on this input. -/
def raise_always : Method := fun _df _fn_args _fn_kwargs =>
  .error (PyErr.mk "ValueError")

/-- A scope body that raises. -/
def raisingBody : PState → PState × Option PyErr := fun t =>
  (t, some (PyErr.mk "ValueError"))

/-! ### Claims -/

/-- Claim C1, counterexample: transparency fails for a strictly in-place
operation.  Uninstrumented, `dropna(inplace=True)` on a two-row frame returns
Python `None`; intercepted, the wrapper substitutes the live container for the
`None` return (source lines 152-154) and then returns that substituted value
to the caller (line 176), so the caller sees the mutated frame instead of
`None`. -/
theorem c1_inplace_return_differs :
    dropna_inplace (PdVal.frame (Frame.mk 2 ["a"])) [] []
      = Except.ok (PdVal.pyNone, PdVal.frame (Frame.mk 1 ["a"]))
    ∧ (run_method_and_calc_stats ClsTag.dataFrame "dropna" dropna_inplace none
        (fun v => v) [] [] (PdVal.frame (Frame.mk 2 ["a"]))
        true false false true false []).1
      = Except.ok (PdVal.frame (Frame.mk 1 ["a"]), PdVal.frame (Frame.mk 1 ["a"]))
    ∧ (run_method_and_calc_stats ClsTag.dataFrame "dropna" dropna_inplace none
        (fun v => v) [] [] (PdVal.frame (Frame.mk 2 ["a"]))
        true false false true false []).1
      ≠ dropna_inplace (PdVal.frame (Frame.mk 2 ["a"])) [] [] := by
  decide

/-- Claim C2 (code bug): after `auto_enable` then `auto_disable`, every
wrapped `pd.DataFrame` operation is restored to its original implementation
and the flag clears, but the wrapped `pd.Series` operation remains wrapped:
`auto_disable`'s restore loop runs over `dir(pd.DataFrame)` only
(source lines 33-35), so the Series descriptors are never restored. -/
theorem c2_disable_leaves_series_wrapped :
    getAttr (auto_disable e0).dfAttrs "dropna" = some (PdFunc.orig 0)
    ∧ getAttr (auto_disable e0).dfAttrs "copy" = some (PdFunc.orig 1)
    ∧ (auto_disable e0).ALREADY_ENABLED = false
    ∧ getAttr s0.srAttrs "copy" = some (PdFunc.orig 2)
    ∧ getAttr e0.srAttrs "copy" = some (PdFunc.wrapper cfg0 (PdFunc.orig 2))
    ∧ getAttr (auto_disable e0).srAttrs "copy"
        = some (PdFunc.wrapper cfg0 (PdFunc.orig 2)) := by
  decide

/-- Claim C3 (code bug): the second `auto_enable` from the enabled state is a
literal no-op (the state is unchanged, so nothing is double-installed and no
descriptor leaks), and after it every eligible operation on both classes is
wrapped exactly once; but the subsequent `auto_disable` restores only the
`pd.DataFrame` originals — the Series operation stays wrapped, so the final
clause of the claim fails on the code. -/
theorem c3_second_enable_noop_but_disable_partial :
    auto_enable cfg0 e0 = e0
    ∧ getAttr e0.dfAttrs "dropna" = some (PdFunc.wrapper cfg0 (PdFunc.orig 0))
    ∧ getAttr e0.srAttrs "copy" = some (PdFunc.wrapper cfg0 (PdFunc.orig 2))
    ∧ List.all e0.dfAttrs (fun p => p.2.atMostSinglyWrapped) = true
    ∧ List.all e0.srAttrs (fun p => p.2.atMostSinglyWrapped) = true
    ∧ getAttr (auto_disable (auto_enable cfg0 e0)).dfAttrs "dropna"
        = some (PdFunc.orig 0)
    ∧ getAttr (auto_disable (auto_enable cfg0 e0)).srAttrs "copy"
        = some (PdFunc.wrapper cfg0 (PdFunc.orig 2)) := by
  decide

/-- Claim C4 (code bug): the `disable` context manager's entry half swaps the
installed `pd.DataFrame` operations back to their originals and clears the
flag; nesting works (an inner suspend/resume around a suspended state is a
no-op and the outer resume re-installs the wrapped state), and a whole
suspend/resume pair from the inactive state is a no-op.  But the entry half
iterates `dir(pd.DataFrame)` only (source line 63), so a currently-installed
`pd.Series` operation is NOT swapped back during the suspension, refuting
"swaps every currently-installed operation". -/
theorem c4_suspend_skips_series :
    (disableEnter e0).ALREADY_ENABLED = false
    ∧ getAttr (disableEnter e0).dfAttrs "dropna" = some (PdFunc.orig 0)
    ∧ getAttr (disableEnter e0).dfAttrs "copy" = some (PdFunc.orig 1)
    ∧ getAttr e0.srAttrs "copy" = some (PdFunc.wrapper cfg0 (PdFunc.orig 2))
    ∧ getAttr (disableEnter e0).srAttrs "copy"
        = some (PdFunc.wrapper cfg0 (PdFunc.orig 2))
    ∧ getAttr (disableCtx e0 (fun t => disableCtx t id)).dfAttrs "dropna"
        = some (PdFunc.wrapper cfg0 (PdFunc.orig 0))
    ∧ getAttr (disableCtx e0 (fun t => disableCtx t id)).dfAttrs "copy"
        = some (PdFunc.wrapper cfg0 (PdFunc.orig 1))
    ∧ (disableCtx e0 (fun t => disableCtx t id)).ALREADY_ENABLED = true
    ∧ disableCtx s0 id = s0 := by
  decide

/-- Claim C5 (code bug): the `enable` context manager's generator has no
try/finally around its `yield` (source lines 52-54), so when the scope body
raises, the error is thrown at the `yield` and `auto_disable` is never
executed: the error propagates with instrumentation still installed and the
flag still set, while a normally-ending scope is disabled as promised. -/
theorem c5_error_path_skips_disable :
    (enableCtx cfg0 s0 raisingBody).2 = some (PyErr.mk "ValueError")
    ∧ (enableCtx cfg0 s0 raisingBody).1.ALREADY_ENABLED = true
    ∧ getAttr (enableCtx cfg0 s0 raisingBody).1.dfAttrs "dropna"
        = some (PdFunc.wrapper cfg0 (PdFunc.orig 0))
    ∧ (enableCtx cfg0 s0 (fun t => (t, none))).1.ALREADY_ENABLED = false
    ∧ getAttr (enableCtx cfg0 s0 (fun t => (t, none))).1.dfAttrs "dropna"
        = some (PdFunc.orig 0) := by
  decide

/-- Claim C1 (amended): for every operation and input, the intercepted call
raises exactly the errors of the uninstrumented call and leaves the input
container in the same post-call state; when the operation returns a value
other than `None`, the intercepted call returns that same value.  For a
strictly in-place operation returning `None`, the intercepted call instead
returns the live input container. -/
theorem c1_transparency_amended (cls : ClsTag) (fnName : String) (fn : Method)
    (origCopy : Option (PdVal → PdVal)) (stdCopy : PdVal → PdVal)
    (fn_args : List PdVal) (fn_kwargs : List (String × PdVal)) (input_df : PdVal)
    (fs silent verbose copy_ok cm : Bool) (log : List StepStats) :
    (∀ e, fn input_df fn_args fn_kwargs = Except.error e →
      (run_method_and_calc_stats cls fnName fn origCopy stdCopy fn_args fn_kwargs
        input_df fs silent verbose copy_ok cm log).1 = Except.error e)
    ∧ (∀ ret container, fn input_df fn_args fn_kwargs = Except.ok (ret, container) →
        ret ≠ PdVal.pyNone →
      (run_method_and_calc_stats cls fnName fn origCopy stdCopy fn_args fn_kwargs
        input_df fs silent verbose copy_ok cm log).1 = Except.ok (ret, container))
    ∧ (∀ container,
        fn input_df fn_args fn_kwargs = Except.ok (PdVal.pyNone, container) →
      (run_method_and_calc_stats cls fnName fn origCopy stdCopy fn_args fn_kwargs
        input_df fs silent verbose copy_ok cm log).1
        = Except.ok (container, container)) := by
  refine ⟨fun e h => ?_, fun ret container h hne => ?_, fun container h => ?_⟩
  · simp only [run_method_and_calc_stats, get_execution_stats, h]
  · simp only [run_method_and_calc_stats, get_execution_stats, h, hne, if_false,
      if_neg hne]
  · simp only [run_method_and_calc_stats, get_execution_stats, h, if_true, if_pos rfl]

/-- Witness for C1 (amended): a non-in-place call (`head`) returns through the
wrapper exactly what the uninstrumented call returns, container untouched. -/
theorem c1_transparency_amended_witness :
    (run_method_and_calc_stats ClsTag.dataFrame "head" head_one none
      (fun v => v) [] [] (PdVal.frame (Frame.mk 2 ["a"]))
      true false false true false []).1
      = Except.ok (PdVal.frame (Frame.mk 1 ["a"]), PdVal.frame (Frame.mk 2 ["a"])) :=
  (c1_transparency_amended ClsTag.dataFrame "head" head_one none (fun v => v)
      [] [] (PdVal.frame (Frame.mk 2 ["a"])) true false false true false []).2.1
    (PdVal.frame (Frame.mk 1 ["a"])) (PdVal.frame (Frame.mk 2 ["a"]))
    (by decide) (by decide)

/-- Claim C6: when the wrapped operation itself raises, the wrapper propagates
that same error unchanged, the pipeline-level log is untouched (no DiffRecord
is persisted for the failed call), and nothing is emitted to the Reporter. -/
theorem c6_exception_propagated (cls : ClsTag) (fnName : String) (fn : Method)
    (origCopy : Option (PdVal → PdVal)) (stdCopy : PdVal → PdVal)
    (fn_args : List PdVal) (fn_kwargs : List (String × PdVal)) (input_df : PdVal)
    (fs silent verbose copy_ok cm : Bool) (log : List StepStats) (e : PyErr)
    (h : fn input_df fn_args fn_kwargs = Except.error e) :
    run_method_and_calc_stats cls fnName fn origCopy stdCopy fn_args fn_kwargs
      input_df fs silent verbose copy_ok cm log
      = (Except.error e, log, []) := by
  simp only [run_method_and_calc_stats, get_execution_stats, h]

/-- Witness for C6: a raising method propagates `ValueError` through the
wrapper and persists nothing. -/
theorem c6_exception_propagated_witness :
    run_method_and_calc_stats ClsTag.dataFrame "dropna" raise_always none
      (fun v => v) [] [] (PdVal.frame (Frame.mk 2 ["a"]))
      true false false true false []
      = (Except.error (PyErr.mk "ValueError"), [], []) :=
  c6_exception_propagated ClsTag.dataFrame "dropna" raise_always none
    (fun v => v) [] [] (PdVal.frame (Frame.mk 2 ["a"]))
    true false false true false [] (PyErr.mk "ValueError") (by decide)

/-- Claim C7: when the wrapped operation returns `None` (a strictly in-place
mutation), the after view used for the statistics record is the live input
container itself — the record reported and the record persisted both carry the
post-call container as `output_df`, and the wrapper returns that container. -/
theorem c7_inplace_after_view (cls : ClsTag) (fnName : String) (fn : Method)
    (origCopy : Option (PdVal → PdVal)) (stdCopy : PdVal → PdVal)
    (fn_args : List PdVal) (fn_kwargs : List (String × PdVal)) (input_df : PdVal)
    (fs silent verbose copy_ok cm : Bool) (log : List StepStats) (container : PdVal)
    (h : fn input_df fn_args fn_kwargs = Except.ok (PdVal.pyNone, container)) :
    (silent = false →
      List.map StepStats.output_df
        (run_method_and_calc_stats cls fnName fn origCopy stdCopy fn_args fn_kwargs
          input_df fs silent verbose copy_ok cm log).2.2 = [container])
    ∧ (container.isFrameOrSeries = true →
      List.map StepStats.output_df
        (run_method_and_calc_stats cls fnName fn origCopy stdCopy fn_args fn_kwargs
          input_df fs silent verbose copy_ok cm log).2.1
        = List.map StepStats.output_df log ++ [container])
    ∧ (run_method_and_calc_stats cls fnName fn origCopy stdCopy fn_args fn_kwargs
        input_df fs silent verbose copy_ok cm log).1
        = Except.ok (container, container) := by
  refine ⟨fun hs => ?_, fun hf => ?_, ?_⟩
  · simp [run_method_and_calc_stats, get_execution_stats, h, hs, log_stats_if_needed]
  · simp [run_method_and_calc_stats, get_execution_stats, h, hf,
      persist_execution_stats]
  · simp [run_method_and_calc_stats, get_execution_stats, h]

/-- Witness for C7: an in-place `dropna` on a two-row frame reports and
persists a record whose after view is the mutated one-row frame. -/
theorem c7_inplace_after_view_witness :
    List.map StepStats.output_df
      (run_method_and_calc_stats ClsTag.dataFrame "dropna" dropna_inplace none
        (fun v => v) [] [] (PdVal.frame (Frame.mk 2 ["a"]))
        true false false true false []).2.2 = [PdVal.frame (Frame.mk 1 ["a"])]
    ∧ List.map StepStats.output_df
      (run_method_and_calc_stats ClsTag.dataFrame "dropna" dropna_inplace none
        (fun v => v) [] [] (PdVal.frame (Frame.mk 2 ["a"]))
        true false false true false []).2.1 = [PdVal.frame (Frame.mk 1 ["a"])] :=
  ⟨(c7_inplace_after_view ClsTag.dataFrame "dropna" dropna_inplace none
      (fun v => v) [] [] (PdVal.frame (Frame.mk 2 ["a"]))
      true false false true false [] (PdVal.frame (Frame.mk 1 ["a"]))
      (by decide)).1 rfl,
   (c7_inplace_after_view ClsTag.dataFrame "dropna" dropna_inplace none
      (fun v => v) [] [] (PdVal.frame (Frame.mk 2 ["a"]))
      true false false true false [] (PdVal.frame (Frame.mk 1 ["a"]))
      (by decide)).2.1 (by decide)⟩

/-- Claim C8: with the high-fidelity capture policy (`copy_ok`), the before
snapshot placed in the statistics record is produced by the original
(un-instrumented) deep copy when `original_copy` resolves, and silently falls
back to the container's standard copy when it does not — in either case the
call outcome is exactly the wrapped operation's outcome, never a failure of
the capture itself. -/
theorem c8_capture_fallback (cls : ClsTag) (fnName : String) (fn : Method)
    (origCopy : Option (PdVal → PdVal)) (stdCopy : PdVal → PdVal)
    (fn_args : List PdVal) (fn_kwargs : List (String × PdVal)) (input_df : PdVal)
    (fs silent verbose cm : Bool) (log : List StepStats) (ret container : PdVal)
    (h : fn input_df fn_args fn_kwargs = Except.ok (ret, container))
    (hs : silent = false) :
    List.map StepStats.input_df
      (run_method_and_calc_stats cls fnName fn origCopy stdCopy fn_args fn_kwargs
        input_df fs silent verbose true cm log).2.2
      = [match origCopy with
         | some f => f input_df
         | none => stdCopy input_df]
    ∧ (run_method_and_calc_stats cls fnName fn origCopy stdCopy fn_args fn_kwargs
        input_df fs silent verbose true cm log).1
      = Except.ok (if ret = PdVal.pyNone then container else ret, container) := by
  cases origCopy <;>
    simp [run_method_and_calc_stats, get_execution_stats, h, hs, log_stats_if_needed]

/-- Witness for C8: with `original_copy` unresolved (`AttributeError` path),
the before snapshot is the standard copy of the two-row input and the in-place
call still succeeds. -/
theorem c8_capture_fallback_witness :
    List.map StepStats.input_df
      (run_method_and_calc_stats ClsTag.dataFrame "dropna" dropna_inplace none
        (fun v => v) [] [] (PdVal.frame (Frame.mk 2 ["a"]))
        true false false true false []).2.2 = [PdVal.frame (Frame.mk 2 ["a"])]
    ∧ (run_method_and_calc_stats ClsTag.dataFrame "dropna" dropna_inplace none
        (fun v => v) [] [] (PdVal.frame (Frame.mk 2 ["a"]))
        true false false true false []).1
      = Except.ok (PdVal.frame (Frame.mk 1 ["a"]), PdVal.frame (Frame.mk 1 ["a"])) :=
  c8_capture_fallback ClsTag.dataFrame "dropna" dropna_inplace none
    (fun v => v) [] [] (PdVal.frame (Frame.mk 2 ["a"]))
    true false false false [] PdVal.pyNone (PdVal.frame (Frame.mk 1 ["a"]))
    (by decide) rfl

/-- Claim C9: a statistics record is persisted into the pipeline-level log
exactly when the call's result after the in-place substitution is a DataFrame
or Series; for any other result (e.g. a scalar aggregate) the log is left
unchanged while the record is still computed and reported. -/
theorem c9_persist_only_frames (cls : ClsTag) (fnName : String) (fn : Method)
    (origCopy : Option (PdVal → PdVal)) (stdCopy : PdVal → PdVal)
    (fn_args : List PdVal) (fn_kwargs : List (String × PdVal)) (input_df : PdVal)
    (fs silent verbose copy_ok cm : Bool) (log : List StepStats) (ret container : PdVal)
    (h : fn input_df fn_args fn_kwargs = Except.ok (ret, container)) :
    ((if ret = PdVal.pyNone then container else ret).isFrameOrSeries = false →
      (run_method_and_calc_stats cls fnName fn origCopy stdCopy fn_args fn_kwargs
        input_df fs silent verbose copy_ok cm log).2.1 = log
      ∧ (silent = false →
        List.length (run_method_and_calc_stats cls fnName fn origCopy stdCopy
          fn_args fn_kwargs input_df fs silent verbose copy_ok cm log).2.2 = 1))
    ∧ ((if ret = PdVal.pyNone then container else ret).isFrameOrSeries = true →
      ∃ st, (run_method_and_calc_stats cls fnName fn origCopy stdCopy fn_args
        fn_kwargs input_df fs silent verbose copy_ok cm log).2.1 = log ++ [st]) := by
  constructor
  · intro hout
    constructor
    · simp [run_method_and_calc_stats, get_execution_stats, h, hout]
    · intro hs
      simp [run_method_and_calc_stats, get_execution_stats, h, hs, log_stats_if_needed]
  · intro hout
    simp only [run_method_and_calc_stats, get_execution_stats, h, hout,
      persist_execution_stats, if_true]
    exact ⟨_, rfl⟩

/-- Witness for C9: a scalar-returning aggregation is reported (one entry to
the Reporter) but persists nothing into the pipeline-level log. -/
theorem c9_persist_only_frames_witness :
    (run_method_and_calc_stats ClsTag.dataFrame "sum" sum_scalar none
      (fun v => v) [] [] (PdVal.frame (Frame.mk 2 ["a"]))
      true false false true false []).2.1 = []
    ∧ List.length (run_method_and_calc_stats ClsTag.dataFrame "sum" sum_scalar none
      (fun v => v) [] [] (PdVal.frame (Frame.mk 2 ["a"]))
      true false false true false []).2.2 = 1 :=
  ⟨((c9_persist_only_frames ClsTag.dataFrame "sum" sum_scalar none (fun v => v)
      [] [] (PdVal.frame (Frame.mk 2 ["a"])) true false false true false []
      (PdVal.scalar 7) (PdVal.frame (Frame.mk 2 ["a"])) (by decide)).1
      (by decide)).1,
   ((c9_persist_only_frames ClsTag.dataFrame "sum" sum_scalar none (fun v => v)
      [] [] (PdVal.frame (Frame.mk 2 ["a"])) true false false true false []
      (PdVal.scalar 7) (PdVal.frame (Frame.mk 2 ["a"])) (by decide)).1
      (by decide)).2 rfl⟩

/-! ### Enable/disable cycles (claim C10)

Across cycles, `auto_enable` keeps re-extending the mutable DataFrame
allow-list (so it accumulates duplicates), but the installation loop only
tests membership in the list, so the DataFrame attribute map reached after
each enable is literally the same. -/

/-- Two folds with pointwise-equal step functions agree. -/
theorem foldl_congr_fun {α β : Type} (f g : β → α → β)
    (h : ∀ acc x, f acc x = g acc x) :
    ∀ (l : List α) (acc : β), List.foldl f acc l = List.foldl g acc l := by
  intro l
  induction l with
  | nil => intro acc; rfl
  | cons x xs ih => intro acc; rw [List.foldl_cons, List.foldl_cons, h, ih]

/-- The installation loop only reads the allow-list through membership, so two
allow-lists with the same members install the same wrappers. -/
theorem wrapClass_mem_congr (cfg : Config) (attrs : AttrMap) (l1 l2 : List String)
    (h : ∀ x, x ∈ l1 ↔ x ∈ l2) :
    wrapClass cfg attrs l1 = wrapClass cfg attrs l2 := by
  unfold wrapClass
  apply foldl_congr_fun
  intro acc func
  by_cases hx : func ∈ l1
  · rw [if_pos hx, if_pos ((h func).mp hx)]
  · rw [if_neg hx, if_neg (fun hc => hx ((h func).mpr hc))]

/-- The DataFrame attribute map that every disable returns to, from the
second state on: originals restored, kept prefixed copies lingering. -/
def dfStable : AttrMap :=
  [("dropna", PdFunc.orig 0), ("copy", PdFunc.orig 1), ("head", PdFunc.orig 3),
   ("original_dropna", PdFunc.orig 0), ("original_copy", PdFunc.orig 1)]

/-- The member set of the DataFrame allow-list after any number of
re-extensions. -/
def dfListFull : List String := ["dropna", "copy", "query"]

/-- The invariant maintained by every enable/disable round trip after the
first: the DataFrame attributes are stable, the flag is down, the mutated
allow-list has exactly the members of `dfListFull` (with `query` present, in
particular), and the additional list is untouched. -/
def CycleInv (t : PState) : Prop :=
  t.dfAttrs = dfStable
  ∧ t.ALREADY_ENABLED = false
  ∧ (∀ x, x ∈ t.settings.DATAFRAME_METHODS_TO_OVERIDE ↔ x ∈ dfListFull)
  ∧ t.settings.DATAFRAME_ADDITIONAL_METHODS_TO_OVERIDE = ["query"]
  ∧ "query" ∈ t.settings.DATAFRAME_METHODS_TO_OVERIDE

theorem cycle_preserves_inv (t : PState) (h : CycleInv t) :
    CycleInv (cycle cfg0 t) := by
  obtain ⟨h1, h2, h3, h4, h5⟩ := h
  have hmem : ∀ x,
      x ∈ t.settings.DATAFRAME_METHODS_TO_OVERIDE ++
        t.settings.DATAFRAME_ADDITIONAL_METHODS_TO_OVERIDE ↔ x ∈ dfListFull := by
    intro x
    rw [List.mem_append, h4]
    constructor
    · rintro (hx | hx)
      · exact (h3 x).mp hx
      · simp only [List.mem_singleton] at hx
        subst hx
        decide
    · intro hx
      exact Or.inl ((h3 x).mpr hx)
  simp only [cycle, auto_enable, auto_disable, h2, Bool.false_eq_true, if_false,
    if_true]
  refine ⟨?_, rfl, fun x => hmem x, h4, (hmem "query").mpr (by decide)⟩
  rw [h1, wrapClass_mem_congr cfg0 dfStable _ dfListFull hmem]
  rfl

theorem cycles_inv (n : Nat) (hn : 1 ≤ n) : CycleInv (cycles cfg0 n s0) := by
  induction n with
  | zero => exact absurd hn (by decide)
  | succ k ih =>
    rcases Nat.eq_zero_or_pos k with hk | hk
    · subst hk
      refine ⟨by decide, by decide, fun x => ?_, by decide, by decide⟩
      have hl : (cycles cfg0 1 s0).settings.DATAFRAME_METHODS_TO_OVERIDE
          = dfListFull := by decide
      rw [hl]
    · exact cycle_preserves_inv _ (ih hk)

/-- Claim C10: after any number of enable/disable cycles, the next
`auto_enable` installs exactly the same DataFrame attribute map as the very
first enable — every selected operation wrapped exactly once — even though the
re-extended allow-list now holds the additional method `query` at least twice
(the accumulated duplicates are harmless because installation is decided by
membership). -/
theorem c10_enable_cycles_stable (n : Nat) (hn : 1 ≤ n) :
    (auto_enable cfg0 (cycles cfg0 n s0)).dfAttrs = (auto_enable cfg0 s0).dfAttrs
    ∧ List.all (auto_enable cfg0 (cycles cfg0 n s0)).dfAttrs
        (fun p => p.2.atMostSinglyWrapped) = true
    ∧ 2 ≤ List.count "query"
        (auto_enable cfg0 (cycles cfg0 n s0)).settings.DATAFRAME_METHODS_TO_OVERIDE := by
  obtain ⟨h1, h2, h3, h4, h5⟩ := cycles_inv n hn
  have hmem : ∀ x,
      x ∈ (cycles cfg0 n s0).settings.DATAFRAME_METHODS_TO_OVERIDE ++
        (cycles cfg0 n s0).settings.DATAFRAME_ADDITIONAL_METHODS_TO_OVERIDE ↔
      x ∈ dfListFull := by
    intro x
    rw [List.mem_append, h4]
    constructor
    · rintro (hx | hx)
      · exact (h3 x).mp hx
      · simp only [List.mem_singleton] at hx
        subst hx
        decide
    · intro hx
      exact Or.inl ((h3 x).mpr hx)
  simp only [auto_enable, h2, Bool.false_eq_true, if_false]
  have hdf : wrapClass cfg0 (cycles cfg0 n s0).dfAttrs
      ((cycles cfg0 n s0).settings.DATAFRAME_METHODS_TO_OVERIDE ++
        (cycles cfg0 n s0).settings.DATAFRAME_ADDITIONAL_METHODS_TO_OVERIDE)
      = (auto_enable cfg0 s0).dfAttrs := by
    rw [h1, wrapClass_mem_congr cfg0 dfStable _ dfListFull hmem]
    decide
  refine ⟨hdf, ?_, ?_⟩
  · show List.all
      (wrapClass cfg0 (cycles cfg0 n s0).dfAttrs
        ((cycles cfg0 n s0).settings.DATAFRAME_METHODS_TO_OVERIDE ++
          (cycles cfg0 n s0).settings.DATAFRAME_ADDITIONAL_METHODS_TO_OVERIDE))
      (fun p => p.2.atMostSinglyWrapped) = true
    rw [hdf]
    decide
  · show 2 ≤ List.count "query"
      ((cycles cfg0 n s0).settings.DATAFRAME_METHODS_TO_OVERIDE ++
        (cycles cfg0 n s0).settings.DATAFRAME_ADDITIONAL_METHODS_TO_OVERIDE)
    rw [h4, List.count_append]
    have hq : 0 < List.count "query"
        (cycles cfg0 n s0).settings.DATAFRAME_METHODS_TO_OVERIDE :=
      List.count_pos_iff.mpr h5
    have hq1 : List.count "query" ["query"] = 1 := by decide
    omega

/-- Witness for C10: one full cycle, then the second enable reproduces the
first enable's DataFrame attribute map, with the allow-list holding `query`
twice. -/
theorem c10_enable_cycles_stable_witness :
    1 ≤ 1
    ∧ ((auto_enable cfg0 (cycles cfg0 1 s0)).dfAttrs = (auto_enable cfg0 s0).dfAttrs
      ∧ List.all (auto_enable cfg0 (cycles cfg0 1 s0)).dfAttrs
          (fun p => p.2.atMostSinglyWrapped) = true
      ∧ 2 ≤ List.count "query"
          (auto_enable cfg0 (cycles cfg0 1 s0)).settings.DATAFRAME_METHODS_TO_OVERIDE) :=
  ⟨by decide, c10_enable_cycles_stable 1 (by decide)⟩

end PandasLog
